import Mathlib

/-!
# Verification of the weather-dashboard acquisition/normalization/caching core

Shallow embedding of the Python modules
`src/processors/validators.py`, `src/processors/data_processor.py`,
`src/processors/cache_manager.py`, `src/data_sources/base_source.py` and
`src/visualizers/dashboard.py` of the `dashboard_meteorologico` repository,
together with proofs about the embedded functions.

Modelling conventions:
* Python numbers (int/float) are modelled as rationals `ℚ`; float `NaN` is not
  representable in the model (records containing `NaN` are outside its scope).
* A Python `dict` is an association list with unique keys kept in insertion
  order; `d[k] = v` is `rupsert`, `del d[k]` is `rerase`, membership/lookup is
  `rlookup`.  `d.get(k)` (which conflates a missing key with a stored `None`)
  is `pyGet`.
* Python `None` is the value `Val.vnone`; a missing key is `rlookup … = none`.
* `time.time`/`datetime.now` instants are passed explicitly as `ℚ` seconds;
  exceptions become `Except`/`Option` results; `logger` calls that the claims
  mention are modelled as an explicit list of emitted log strings.
* Strings are assumed ASCII where they are fed to `str.encode()` (true of
  every string any claim touches), so UTF-8 encoding is `Char.toNat` per char.
-/

/-! ## Python-dict primitives -/

/-- First-match lookup in an association list (Python `d[k]` / `k in d`). -/
def rlookup {α : Type} : List (String × α) → String → Option α
  | [], _ => none
  | (k, v) :: rest, key => if k = key then some v else rlookup rest key

/-- Python `d[k] = v`: replace the value in place if the key exists
(keeping insertion order), otherwise append the new pair at the end. -/
def rupsert {α : Type} : List (String × α) → String → α → List (String × α)
  | [], key, v => [(key, v)]
  | (k, w) :: rest, key, v =>
      if k = key then (k, v) :: rest else (k, w) :: rupsert rest key v

/-- Python `del d[k]`: drop the (unique) entry with the given key. -/
def rerase {α : Type} : List (String × α) → String → List (String × α)
  | [], _ => []
  | (k, w) :: rest, key =>
      if k = key then rest else (k, w) :: rerase rest key

theorem rlookup_rupsert_self {α : Type} (l : List (String × α)) (k : String) (v : α) :
    rlookup (rupsert l k v) k = some v := by
  induction l with
  | nil => simp [rupsert, rlookup]
  | cons p rest ih =>
      obtain ⟨k', w⟩ := p
      by_cases h : k' = k <;> simp [rupsert, rlookup, h, ih]

theorem rlookup_rupsert_ne {α : Type} (l : List (String × α)) (k k' : String) (v : α)
    (h : k' ≠ k) : rlookup (rupsert l k v) k' = rlookup l k' := by
  have h' : ∀ k₀ : String, k₀ = k → ¬ k₀ = k' := by
    intro k₀ hk hk'
    exact h (hk'.symm.trans hk)
  induction l with
  | nil => simp [rupsert, rlookup, h' k rfl]
  | cons p rest ih =>
      obtain ⟨k₀, w⟩ := p
      by_cases h0 : k₀ = k
      · simp [rupsert, rlookup, h0, h' k rfl]
      · simp [rupsert, rlookup, h0, ih]

/-! ## Python values

`Val` covers every Python value the embedded code stores in the records it
manipulates: `None`, numbers, strings, lists and dicts.  (Non-numeric values
in numeric positions would raise `TypeError` in the source; every claim below
only involves numeric-or-absent field values, and the embedding notes the
spots where the source would raise.) -/

inductive Val : Type
  | vnone : Val
  | vnum (q : ℚ) : Val
  | vstr (s : String) : Val
  | vlist (xs : List Val) : Val
  | vdict (fs : List (String × Val)) : Val

/-- A Python dict holding weather data: field name → value. -/
abbrev PyRec := List (String × Val)

/-- Python `d.get(k)`: the stored value, or `None` when the key is absent. -/
def pyGet (d : PyRec) (k : String) : Val := (rlookup d k).getD Val.vnone

/-- Python truthiness of the values in `Val`. -/
def pyTruthy : Val → Bool
  | .vnone => false
  | .vnum q => q ≠ 0
  | .vstr s => s ≠ ""
  | .vlist xs => !xs.isEmpty
  | .vdict fs => !fs.isEmpty

/-! ## MD5 (`hashlib.md5(...).hexdigest()` over ASCII input)

Word-exact implementation of RFC 1321 on byte lists, with 32-bit words as
`Nat` reduced `% 2^32`. -/

def m32 (n : Nat) : Nat := n % 4294967296

def madd (a b : Nat) : Nat := m32 (a + b)

/-- Left-rotation of a 32-bit word. -/
def rotl (x s : Nat) : Nat := m32 (x * 2 ^ s) ||| x / 2 ^ (32 - s)

/-- The 64 sine-derived round constants of MD5. -/
def md5K : List Nat :=
  [0xd76aa478, 0xe8c7b756, 0x242070db, 0xc1bdceee,
   0xf57c0faf, 0x4787c62a, 0xa8304613, 0xfd469501,
   0x698098d8, 0x8b44f7af, 0xffff5bb1, 0x895cd7be,
   0x6b901122, 0xfd987193, 0xa679438e, 0x49b40821,
   0xf61e2562, 0xc040b340, 0x265e5a51, 0xe9b6c7aa,
   0xd62f105d, 0x02441453, 0xd8a1e681, 0xe7d3fbc8,
   0x21e1cde6, 0xc33707d6, 0xf4d50d87, 0x455a14ed,
   0xa9e3e905, 0xfcefa3f8, 0x676f02d9, 0x8d2a4c8a,
   0xfffa3942, 0x8771f681, 0x6d9d6122, 0xfde5380c,
   0xa4beea44, 0x4bdecfa9, 0xf6bb4b60, 0xbebfbc70,
   0x289b7ec6, 0xeaa127fa, 0xd4ef3085, 0x04881d05,
   0xd9d4d039, 0xe6db99e5, 0x1fa27cf8, 0xc4ac5665,
   0xf4292244, 0x432aff97, 0xab9423a7, 0xfc93a039,
   0x655b59c3, 0x8f0ccc92, 0xffeff47d, 0x85845dd1,
   0x6fa87e4f, 0xfe2ce6e0, 0xa3014314, 0x4e0811a1,
   0xf7537e82, 0xbd3af235, 0x2ad7d2bb, 0xeb86d391]

/-- The per-round left-rotation amounts of MD5. -/
def md5S : List Nat :=
  [7, 12, 17, 22, 7, 12, 17, 22, 7, 12, 17, 22, 7, 12, 17, 22,
   5, 9, 14, 20, 5, 9, 14, 20, 5, 9, 14, 20, 5, 9, 14, 20,
   4, 11, 16, 23, 4, 11, 16, 23, 4, 11, 16, 23, 4, 11, 16, 23,
   6, 10, 15, 21, 6, 10, 15, 21, 6, 10, 15, 21, 6, 10, 15, 21]

/-- Nonlinear round function (per 16-round group). -/
def md5F (i b c d : Nat) : Nat :=
  if i < 16 then (b &&& c) ||| ((b ^^^ 0xFFFFFFFF) &&& d)
  else if i < 32 then (d &&& b) ||| ((d ^^^ 0xFFFFFFFF) &&& c)
  else if i < 48 then b ^^^ c ^^^ d
  else c ^^^ (b ||| (d ^^^ 0xFFFFFFFF))

/-- Message-word index used in round `i`. -/
def md5G (i : Nat) : Nat :=
  if i < 16 then i
  else if i < 32 then (5 * i + 1) % 16
  else if i < 48 then (3 * i + 5) % 16
  else (7 * i) % 16

/-- `len` little-endian bytes of `n`. -/
def toBytesLE (len : Nat) (n : Nat) : List Nat :=
  (List.range len).map (fun i => n / 256 ^ i % 256)

/-- RFC 1321 padding: `0x80`, zeros to 56 mod 64, then the 64-bit bit length. -/
def md5Pad (msg : List Nat) : List Nat :=
  msg ++ [0x80] ++ List.replicate ((119 - msg.length % 64) % 64) 0 ++
    toBytesLE 8 (msg.length * 8 % 2 ^ 64)

/-- Split into 64-byte chunks; the fuel argument (any bound on the number of
chunks, here the byte length itself) keeps the recursion structural. -/
def chunksOf64Aux : Nat → List Nat → List (List Nat)
  | 0, _ => []
  | _, [] => []
  | fuel + 1, l => l.take 64 :: chunksOf64Aux fuel (l.drop 64)

def chunksOf64 (l : List Nat) : List (List Nat) := chunksOf64Aux l.length l

/-- The sixteen 32-bit little-endian words of one 64-byte chunk. -/
def wordsLE (chunk : List Nat) : List Nat :=
  (List.range 16).map (fun i =>
    chunk.getD (4 * i) 0 + 256 * chunk.getD (4 * i + 1) 0 +
      65536 * chunk.getD (4 * i + 2) 0 + 16777216 * chunk.getD (4 * i + 3) 0)

structure MD5State : Type where
  a : Nat
  b : Nat
  c : Nat
  d : Nat
deriving DecidableEq

def md5Init : MD5State := ⟨0x67452301, 0xefcdab89, 0x98badcfe, 0x10325476⟩

/-- One of the 64 rounds on one chunk. -/
def md5Step (M : List Nat) (st : MD5State) (i : Nat) : MD5State :=
  let t := madd (madd st.a (md5F i st.b st.c st.d))
    (madd (md5K.getD i 0) (M.getD (md5G i) 0))
  ⟨st.d, madd st.b (rotl t (md5S.getD i 0)), st.b, st.c⟩

/-- Process one 64-byte chunk. -/
def md5Chunk (st : MD5State) (chunk : List Nat) : MD5State :=
  let f := (List.range 64).foldl (md5Step (wordsLE chunk)) st
  ⟨madd st.a f.a, madd st.b f.b, madd st.c f.c, madd st.d f.d⟩

/-- The 16-byte MD5 digest of a byte string. -/
def md5Bytes (msg : List Nat) : List Nat :=
  let f := (chunksOf64 (md5Pad msg)).foldl md5Chunk md5Init
  toBytesLE 4 f.a ++ toBytesLE 4 f.b ++ toBytesLE 4 f.c ++ toBytesLE 4 f.d

def hexChar (n : Nat) : Char :=
  if n < 10 then Char.ofNat (48 + n) else Char.ofNat (87 + n)

/-- UTF-8 bytes of an ASCII string (`str.encode()` in the source). -/
def strBytes (s : String) : List Nat := s.data.map Char.toNat

/-- `hashlib.md5(s.encode()).hexdigest()`: lowercase hex of the digest. -/
def md5Hex (s : String) : String :=
  String.mk (((md5Bytes (strBytes s)).map
    (fun b => [hexChar (b / 16), hexChar (b % 16)])).flatten)

/-- Python `s.startswith(pre)`. -/
def pyStartswith (s pre : String) : Bool := pre.data.isPrefixOf s.data

/-- Python `needle in hay` on strings (substring containment). -/
def pyContains (hay needle : String) : Bool :=
  decide (needle.data <:+: hay.data)

/-! ## Rendering of Python numbers in f-strings and `json.dumps`

Only two properties of the textual rendering of a number are ever used below:
it is a deterministic function of the number, and it contains no letter
characters (in particular never the substring `"None"`), which also holds for
every rendering CPython produces for `int`/`float` values (digits, sign, dot,
slash or the exponent letter `e` — never a capital `N`; even `nan`/`inf` are
lowercase).  Non-integer values are rendered here as `num/den`, abstracting
CPython's decimal float rendering. -/

def digitChar (n : Nat) : Char := Char.ofNat (48 + n % 10)

def natCharsAux : Nat → Nat → List Char
  | 0, _ => []
  | fuel + 1, n =>
      if n < 10 then [digitChar n] else natCharsAux fuel (n / 10) ++ [digitChar (n % 10)]

def natChars (n : Nat) : List Char := natCharsAux (n + 1) n

def intChars (i : ℤ) : List Char :=
  (if i < 0 then ['-'] else []) ++ natChars i.natAbs

def pyNumChars (q : ℚ) : List Char :=
  intChars q.num ++ (if q.den = 1 then [] else '/' :: natChars q.den)

/-- The text a Python f-string interpolates for a number. -/
def pyNumRepr (q : ℚ) : String := String.mk (pyNumChars q)

theorem natCharsAux_digits (fuel n : Nat) :
    ∀ c ∈ natCharsAux fuel n, ∃ d, d < 10 ∧ c = digitChar d := by
  induction fuel generalizing n with
  | zero => simp [natCharsAux]
  | succ fuel ih =>
      intro c hc
      by_cases h : n < 10
      · simp [natCharsAux, h] at hc
        exact ⟨n % 10, Nat.mod_lt _ (by omega), by simp [hc, digitChar]⟩
      · simp [natCharsAux, h] at hc
        rcases hc with hc | hc
        · exact ih _ c hc
        · exact ⟨n % 10, Nat.mod_lt _ (by omega), hc⟩

/-- `'N'` never occurs in the rendering of a number. -/
theorem capitalN_not_mem_pyNumChars (q : ℚ) : 'N' ∉ pyNumChars q := by
  intro hmem
  have hnotdig : ∀ d, d < 10 → digitChar d ≠ 'N' := by decide
  have hdig : ∀ n : Nat, 'N' ∉ natChars n := by
    intro n hn
    obtain ⟨d, hd, he⟩ := natCharsAux_digits (n + 1) n 'N' hn
    exact hnotdig d hd he.symm
  simp only [pyNumChars, intChars, List.append_assoc, List.mem_append] at hmem
  rcases hmem with h | h | h
  · split at h <;> simp_all
  · exact hdig _ h
  · split at h <;> simp_all

/-! ## JSON serialization and cache keys (`cache_manager.py`)

`_generate_key` computes
`hashlib.md5(f"{source}:{json.dumps(params, sort_keys=True)}".encode()).hexdigest()`.
Parameter values occurring in the modelled call sites are numbers and plain
ASCII strings without characters that JSON would escape. -/

inductive JVal : Type
  | jnum (q : ℚ) : JVal
  | jstr (s : String) : JVal
deriving DecidableEq

def jsonRenderVal : JVal → String
  | .jnum q => pyNumRepr q
  | .jstr s => "\"" ++ s ++ "\""

def jsonItem (p : String × JVal) : String :=
  "\"" ++ p.1 ++ "\": " ++ jsonRenderVal p.2

/-- Code-point lexicographic comparison, Python's `<=` on strings. -/
def charListLe : List Char → List Char → Bool
  | [], _ => true
  | _ :: _, [] => false
  | a :: as, b :: bs => if a = b then charListLe as bs else decide (a.toNat < b.toNat)

def strLe (a b : String) : Bool := charListLe a.data b.data

/-- The key order `sort_keys=True` sorts by. -/
def keyLe (p q : String × JVal) : Prop := strLe p.1 q.1 = true

instance : DecidableRel keyLe := fun p q =>
  inferInstanceAs (Decidable (strLe p.1 q.1 = true))

/-- `sort_keys=True`: items ordered by key (stable). -/
def sortPairs (l : List (String × JVal)) : List (String × JVal) :=
  List.insertionSort keyLe l

/-- `json.dumps(params, sort_keys=True)` with default separators. -/
def jsonDumpsSorted (params : List (String × JVal)) : String :=
  "\x7b" ++ String.intercalate ", " ((sortPairs params).map jsonItem) ++ "\x7d"

/-- `CacheManager._generate_key`. -/
def generateKey (source : String) (params : List (String × JVal)) : String :=
  md5Hex (source ++ ":" ++ jsonDumpsSorted params)

/-! ## CacheManager, in-memory fallback tier

State of the two plain dicts `self.cache` and `self._cache_timestamps`;
`datetime.now()` instants are `ℚ` seconds and `(now - ts).total_seconds()`
is subtraction. -/

structure MemCache : Type where
  cache : List (String × Val)
  timestamps : List (String × ℚ)

/-- `CacheManager.get` (memory tier): hit while `age < ttl_seconds`, delete
the entry and miss once `age ≥ ttl_seconds`; a key missing from the
timestamps dict falls through to a miss without deletion. -/
def cmGet (st : MemCache) (ttl : ℚ) (source : String) (params : List (String × JVal))
    (now : ℚ) : Option Val × MemCache :=
  let key := generateKey source params
  match rlookup st.cache key with
  | none => (none, st)
  | some v =>
      match rlookup st.timestamps key with
      | none => (none, st)
      | some ts =>
          if now - ts < ttl then (some v, st)
          else (none, ⟨rerase st.cache key, rerase st.timestamps key⟩)

/-- `CacheManager.set` (memory tier): unconditional overwrite of value and
timestamp; returns `True`. -/
def cmSet (st : MemCache) (source : String) (params : List (String × JVal))
    (value : Val) (now : ℚ) : MemCache × Bool :=
  let key := generateKey source params
  (⟨rupsert st.cache key value, rupsert st.timestamps key now⟩, true)

/-- `CacheManager.invalidate` (memory tier): with no source, clear both dicts;
with a source, delete the keys of `self.cache` that start with the source
name and return how many were deleted. -/
def cmInvalidate (st : MemCache) : Option String → Nat × MemCache
  | none => (st.cache.length, ⟨[], []⟩)
  | some source =>
      let keysToDelete := (st.cache.map Prod.fst).filter (fun k => pyStartswith k source)
      (keysToDelete.length,
       ⟨keysToDelete.foldl rerase st.cache, keysToDelete.foldl rerase st.timestamps⟩)

/-! ## Validators (`validators.py`)

Each `validate_*` returns `(es_válida, mensaje_error)`.  The message text is
embedded verbatim (with `pyNumRepr` for f-string number interpolation and
`typeName` for `type(x)`), because `detect_anomalies` branches on whether the
message contains the substring `"None"`. -/

/-- Python `type(x)` rendering for the non-numeric values of `Val`. -/
def typeName : Val → String
  | .vnone => "<class 'NoneType'>"
  | .vnum _ => "<class 'float'>"
  | .vstr _ => "<class 'str'>"
  | .vlist _ => "<class 'list'>"
  | .vdict _ => "<class 'dict'>"

/-- `validate_temperature`: `None` and non-numbers are rejected first, then
the range check `-50 ≤ t ≤ 60`.  (The stricter Medellín band only logs a
warning and does not affect the returned value.) -/
def validate_temperature (t : Val) (location : String) : Bool × Option String :=
  match t with
  | .vnone => (false, some "Temperatura es None")
  | .vnum q =>
      if q < -50 ∨ q > 60 then
        (false, some ("Temperatura fuera de rango válido: " ++ pyNumRepr q ++
          "°C (rango esperado: -50 a 60°C)"))
      else (true, none)
  | v => (false, some ("Temperatura debe ser numérica, recibido: " ++ typeName v))

/-- `validate_humidity`: range `0 ≤ h ≤ 100`. -/
def validate_humidity (h : Val) : Bool × Option String :=
  match h with
  | .vnone => (false, some "Humedad es None")
  | .vnum q =>
      if q < 0 ∨ q > 100 then
        (false, some ("Humedad fuera de rango válido: " ++ pyNumRepr q ++
          "% (rango esperado: 0-100%)"))
      else (true, none)
  | v => (false, some ("Humedad debe ser numérica, recibido: " ++ typeName v))

/-- `validate_pressure`: unit conversion to hPa, then range `800 ≤ p ≤ 1100`. -/
def validate_pressure (p : Val) (unit : String) : Bool × Option String :=
  match p with
  | .vnone => (false, some "Presión es None")
  | .vnum q =>
      let hpa : ℚ :=
        if unit = "Pa" then q / 100
        else if unit = "mmHg" then q * 1.33322
        else if unit = "inHg" then q * 33.8639
        else q
      if hpa < 800 ∨ hpa > 1100 then
        (false, some ("Presión fuera de rango válido: " ++ pyNumRepr q ++ " " ++ unit ++
          " (rango esperado: 800-1100 hPa)"))
      else (true, none)
  | v => (false, some ("Presión debe ser numérica, recibido: " ++ typeName v))

/-- `validate_timestamp` (validity part only; the parsed datetime is unused by
`detect_anomalies`).  Numeric timestamps are `datetime.fromtimestamp` and
strings are `pd.to_datetime`; both are modelled as succeeding — out-of-range
epochs or unparsable strings would fail in the source, but no claim below
involves a timestamp field at all. -/
def validate_timestamp (t : Val) : Bool × Option String :=
  match t with
  | .vnone => (false, some "Timestamp es None")
  | .vnum _ => (true, none)
  | .vstr _ => (true, none)
  | v => (false, some ("Formato de timestamp no soportado: " ++ typeName v))

structure Anomaly : Type where
  field : String
  value : Val
  error : String
  severity : String

/-- Block 1 of `detect_anomalies`: the temperature validator; severity is
`"error"` iff the message contains `"None"`, else `"warning"`. -/
def daTemp (data : PyRec) (location : String) : List Anomaly :=
  match rlookup data "temperature" with
  | none => []
  | some v =>
      let r := validate_temperature v location
      if r.1 then []
      else [⟨"temperature", v, (r.2).getD "",
        if pyContains ((r.2).getD "") "None" then "error" else "warning"⟩]

/-- Block 2: humidity validator, severity always `"error"`. -/
def daHum (data : PyRec) : List Anomaly :=
  match rlookup data "humidity" with
  | none => []
  | some v =>
      let r := validate_humidity v
      if r.1 then [] else [⟨"humidity", v, (r.2).getD "", "error"⟩]

/-- Block 3: pressure validator (default unit hPa), severity `"error"`. -/
def daPres (data : PyRec) : List Anomaly :=
  match rlookup data "pressure" with
  | none => []
  | some v =>
      let r := validate_pressure v "hPa"
      if r.1 then [] else [⟨"pressure", v, (r.2).getD "", "error"⟩]

/-- Block 4: timestamp validator, severity `"error"`. -/
def daTs (data : PyRec) : List Anomaly :=
  match rlookup data "timestamp" with
  | none => []
  | some v =>
      let r := validate_timestamp v
      if r.1 then [] else [⟨"timestamp", v, (r.2).getD "", "error"⟩]

/-- Block 5: missing critical field (absent key or stored `None`). -/
def daCritFor (data : PyRec) (f : String) : List Anomaly :=
  match rlookup data f with
  | none => [⟨f, .vnone, "Campo crítico '" ++ f ++ "' faltante", "error"⟩]
  | some .vnone => [⟨f, .vnone, "Campo crítico '" ++ f ++ "' faltante", "error"⟩]
  | some _ => []

def daCrit (data : PyRec) : List Anomaly :=
  daCritFor data "temperature" ++ daCritFor data "humidity"

/-- Block 6: extreme-but-possible temperature (`t < 0 or t > 30`), severity
`"warning"`.  A present non-numeric temperature would raise `TypeError` at
the comparison in the source; the model returns nothing there and no claim
reaches that case. -/
def daExtreme (data : PyRec) (location : String) : List Anomaly :=
  match rlookup data "temperature" with
  | some (.vnum q) =>
      if q < 0 ∨ q > 30 then
        [⟨"temperature", .vnum q,
          "Temperatura extrema para " ++ location ++ ": " ++ pyNumRepr q ++ "°C",
          "warning"⟩]
      else []
  | _ => []

/-- `detect_anomalies(data, location)`: the six blocks in source order. -/
def detect_anomalies (data : PyRec) (location : String) : List Anomaly :=
  daTemp data location ++ daHum data ++ daPres data ++ daTs data ++
    daCrit data ++ daExtreme data location

/-! ## DataProcessor (`data_processor.py`) -/

/-- Python `d.get(k, default)`. -/
def pyGetD (d : PyRec) (k : String) (dflt : Val) : Val := (rlookup d k).getD dflt

/-- An anomaly as the dict `detect_anomalies` appends. -/
def anomalyToVal (a : Anomaly) : Val :=
  .vdict [("field", .vstr a.field), ("value", a.value),
          ("error", .vstr a.error), ("severity", .vstr a.severity)]

/-- The alias table of `standardize_data`, in source order. -/
def fieldMapping : List (String × List String) :=
  [("temperature", ["temperature", "temp", "temperature_2m"]),
   ("humidity", ["humidity", "relative_humidity", "relative_humidity_2m"]),
   ("precipitation", ["precipitation", "precip", "precipitation_sum"]),
   ("wind_speed", ["wind_speed", "windspeed", "wind_speed_10m"]),
   ("wind_direction", ["wind_direction", "wind_deg", "wind_angle", "wind_direction_10m"]),
   ("pressure", ["pressure", "surface_pressure", "pressure_msl"])]

/-- First alias present in the payload with a non-`None` value. -/
def firstAlias (data : PyRec) : List String → Option Val
  | [] => none
  | f :: rest =>
      match rlookup data f with
      | some .vnone => firstAlias data rest
      | some v => some v
      | none => firstAlias data rest

/-- First block of `DataProcessor._convert_units`: Kelvin→Celsius for
OpenWeatherMap when the temperature is truthy and `> 100`.  (A truthy
non-numeric value would raise `TypeError` at the comparison in the source;
the model leaves the record unchanged there and no claim reaches that
case.) -/
def convertTemp (data : PyRec) (source : String) : PyRec :=
  if source = "OpenWeatherMap" then
    match rlookup data "temperature" with
    | some (.vnum q) =>
        if q ≠ 0 ∧ q > 100 then rupsert data "temperature" (.vnum (q - 273.15)) else data
    | _ => data
  else data

/-- Second block of `_convert_units`: m/s→km/h for a truthy OpenWeatherMap
wind speed. -/
def convertWind (data : PyRec) (source : String) : PyRec :=
  match rlookup data "wind_speed" with
  | some (.vnum w) =>
      if w ≠ 0 then
        (if source = "OpenWeatherMap" then rupsert data "wind_speed" (.vnum (w * 3.6)) else data)
      else data
  | _ => data

/-- `DataProcessor._convert_units`: the two conversion blocks in source
order. -/
def convert_units (data : PyRec) (source : String) : PyRec :=
  convertWind (convertTemp data source) source

/-- `DataProcessor.standardize_data`: base fields, alias resolution, unit
conversion, then anomaly tagging (detector called with its default location
`"Medellín"`).  `datetime.now().isoformat()` is the explicit `nowIso`. -/
def standardize_data (data : PyRec) (source : String) (nowIso : String) : PyRec :=
  let base : PyRec :=
    [("source", .vstr source),
     ("timestamp", pyGetD data "timestamp" (.vstr nowIso)),
     ("location", pyGetD data "location" (.vdict []))]
  let mapped := fieldMapping.foldl
    (fun acc p =>
      match firstAlias data p.2 with
      | some v => rupsert acc p.1 v
      | none => acc) base
  let conv := convert_units mapped source
  let anoms := detect_anomalies conv "Medellín"
  if anoms.isEmpty then conv
  else rupsert conv "anomalies" (.vlist (anoms.map anomalyToVal))

/-- The numeric fields `combine_sources` aggregates, in source order. -/
def numericFields : List String := ["temperature", "humidity", "precipitation", "wind_speed", "pressure"]

/-- The non-`None` values of a field across the inputs.  (Only numbers are
collected: a non-`None` non-numeric value would make the source's `sum()`
raise `TypeError`; no claim involves one.) -/
def collectVals (data_list : List PyRec) (f : String) : List ℚ :=
  data_list.filterMap (fun d =>
    match rlookup d f with
    | some (Val.vnum q) => some q
    | _ => none)

/-- Step of `combine_sources`: the four derived keys for one field, when at
least one value exists. -/
def addStats (data_list : List PyRec) (acc : PyRec) (f : String) : PyRec :=
  let values := collectVals data_list f
  if values.isEmpty then acc
  else
    rupsert (rupsert (rupsert (rupsert acc
      (f ++ "_mean") (.vnum (values.sum / values.length)))
      (f ++ "_min") (.vnum ((values.min?).getD 0)))
      (f ++ "_max") (.vnum ((values.max?).getD 0)))
      (f ++ "_count") (.vnum values.length)

/-- Second loop of `combine_sources`: headline field := its mean when present. -/
def addHeadline (acc : PyRec) (f : String) : PyRec :=
  match rlookup acc (f ++ "_mean") with
  | some m => rupsert acc f m
  | none => acc

/-- `DataProcessor.combine_sources`. -/
def combine_sources (data_list : List PyRec) (nowIso : String) : PyRec :=
  if data_list.isEmpty then []
  else
    let base : PyRec :=
      [("sources", .vlist (data_list.map (fun d => pyGet d "source"))),
       ("timestamp", .vstr nowIso),
       ("location", pyGetD (data_list.headD []) "location" (.vdict []))]
    let withStats := numericFields.foldl (addStats data_list) base
    numericFields.foldl addHeadline withStats

/-- Per-entry cleaning of `validate_and_clean`: `None` becomes `0.0` for
precipitation, stays `None` for humidity/wind_speed, and every other value
is untouched. -/
def cleanVal (k : String) : Val → Val
  | .vnone => if k = "precipitation" then Val.vnum 0 else Val.vnone
  | v => v

/-- The value-cleaning pass of `validate_and_clean` (runs on `data.copy()`). -/
def cleanRec (d : PyRec) : PyRec :=
  d.map (fun p => (p.1, cleanVal p.1 p.2))

/-- `DataProcessor.validate_and_clean`.  The source mutates its argument
(`data["validation_errors"] = critical_errors`) *before* taking the copy it
cleans; the model returns the pair (input record after the call, returned
record). -/
def validate_and_clean (data : PyRec) (location : String) : PyRec × PyRec :=
  let anoms := detect_anomalies data location
  let critical := anoms.filter (fun a => a.severity = "error")
  let mutated :=
    if critical.isEmpty then data
    else rupsert data "validation_errors" (.vlist (critical.map anomalyToVal))
  (mutated, cleanRec mutated)

/-! ## Retry helper (`base_source.py`, `_retry_with_backoff`)

`func` is modelled as a map from the attempt index (the successive outcomes
of a stateful callable) to a result or a raised exception.  The second
component of the result is the total of the `time.sleep(wait_time)` calls.
If every attempt fails the source re-raises `last_exception`; the `.error`
payload is `Option`al because with `max_attempts = 0` the source would
`raise None` (a `TypeError`). -/

def retryGo {E α : Type} (f : Nat → Except E α) (factor : ℚ) :
    Nat → Nat → ℚ → Option E → Except (Option E) α × ℚ
  | 0, _, waited, last => (.error last, waited)
  | rem + 1, attempt, waited, last =>
      match f attempt with
      | .ok v => (.ok v, waited)
      | .error e =>
          let waited' := if rem > 0 then waited + factor ^ attempt else waited
          retryGo f factor rem (attempt + 1) waited' (some e)

/-- `_retry_with_backoff(func, max_attempts=maxAttempts)` with
`self.retry_backoff_factor = factor`. -/
def retry_with_backoff {E α : Type} (f : Nat → Except E α) (factor : ℚ)
    (maxAttempts : Nat) : Except (Option E) α × ℚ :=
  retryGo f factor maxAttempts 0 0 none

/-! ## Dashboard acquisition (`dashboard.py`, `get_data_for_location`)

A provider is its name plus the outcome of `get_current_weather` for the
requested coordinate.  `logger.error` calls are collected in the second
component; the cache manager state is threaded through.  The `except` block
catches the provider fetch failure, logs it and continues with the next
provider. -/

structure WSource : Type where
  name : String
  current : Except String PyRec

/-- Loop body for one provider. -/
def gdflStep (useCache : Bool) (ttl now : ℚ) (nowIso : String) (lat lon : ℚ)
    (acc : List Val × List String × MemCache) (s : WSource) :
    List Val × List String × MemCache :=
  let results := acc.1
  let errors := acc.2.1
  let cm := acc.2.2
  let ck : List (String × JVal) :=
    [("source", .jstr s.name), ("lat", .jnum lat), ("lon", .jnum lon), ("type", .jstr "current")]
  let got := if useCache then cmGet cm ttl s.name ck now else (none, cm)
  let fetched : List Val × List String × MemCache :=
    match s.current with
    | .error e =>
        (results, errors ++ ["Error al obtener datos de " ++ s.name ++ ": " ++ e], got.2)
    | .ok raw =>
        let std := standardize_data raw s.name nowIso
        let cm2 := if useCache then (cmSet got.2 s.name ck (.vdict std) now).1 else got.2
        (results ++ [.vdict std], errors, cm2)
  match got.1 with
  | some v => if pyTruthy v then (results ++ [v], errors, got.2) else fetched
  | none => fetched

/-- `WeatherDashboard.get_data_for_location` (current weather across
providers).  `source_names` filtering uses Python truthiness: `None` *and*
the empty list leave every configured provider in use. -/
def get_data_for_location (sources : List WSource) (sourceNames : Option (List String))
    (useCache : Bool) (cm : MemCache) (ttl now : ℚ) (nowIso : String) (lat lon : ℚ) :
    List Val × List String × MemCache :=
  let toUse :=
    match sourceNames with
    | some names => if names.isEmpty then sources else sources.filter (fun s => names.contains s.name)
    | none => sources
  toUse.foldl (gdflStep useCache ttl now nowIso lat lon) ([], [], cm)

/-! ## Properties of the key order -/

theorem char_toNat_inj {a b : Char} (h : a.toNat = b.toNat) : a = b := by
  have h2 := congrArg Char.ofNat h
  rwa [Char.ofNat_toNat, Char.ofNat_toNat] at h2

theorem charListLe_total (a b : List Char) :
    charListLe a b = true ∨ charListLe b a = true := by
  induction a generalizing b with
  | nil => exact Or.inl rfl
  | cons x xs ih =>
      cases b with
      | nil => exact Or.inr rfl
      | cons y ys =>
          by_cases hxy : x = y
          · subst hxy
            simpa [charListLe] using ih ys
          · have hne : x.toNat ≠ y.toNat := fun h => hxy (char_toNat_inj h)
            rcases Nat.lt_or_ge x.toNat y.toNat with h | h
            · exact Or.inl (by simp [charListLe, hxy, h])
            · have hlt : y.toNat < x.toNat := lt_of_le_of_ne h (fun he => hne he.symm)
              exact Or.inr (by simp [charListLe, Ne.symm hxy, hlt])

theorem charListLe_trans {a b c : List Char} (hab : charListLe a b = true)
    (hbc : charListLe b c = true) : charListLe a c = true := by
  induction a generalizing b c with
  | nil => rfl
  | cons x xs ih =>
      cases b with
      | nil => simp [charListLe] at hab
      | cons y ys =>
          cases c with
          | nil => simp [charListLe] at hbc
          | cons z zs =>
              by_cases hxy : x = y <;> by_cases hyz : y = z
              · subst hxy; subst hyz
                simp [charListLe] at hab hbc ⊢
                exact ih hab hbc
              · subst hxy
                simp [charListLe, hyz] at hbc ⊢
                simp [hyz, hbc]
              · subst hyz
                simp [charListLe, hxy] at hab ⊢
                simp [hxy, hab]
              · simp [charListLe, hxy] at hab
                simp [charListLe, hyz] at hbc
                have hxz : x ≠ z := by
                  intro he
                  subst he
                  exact absurd (Nat.lt_trans hab hbc) (Nat.lt_irrefl _)
                simp [charListLe, hxz]
                exact Nat.lt_trans hab hbc

theorem charListLe_antisymm {a b : List Char} (hab : charListLe a b = true)
    (hba : charListLe b a = true) : a = b := by
  induction a generalizing b with
  | nil =>
      cases b with
      | nil => rfl
      | cons y ys => simp [charListLe] at hba
  | cons x xs ih =>
      cases b with
      | nil => simp [charListLe] at hab
      | cons y ys =>
          by_cases hxy : x = y
          · subst hxy
            simp [charListLe] at hab hba
            exact congrArg (x :: ·) (ih hab hba)
          · simp [charListLe, hxy] at hab
            simp [charListLe, Ne.symm hxy] at hba
            omega

theorem strLe_total (a b : String) : strLe a b = true ∨ strLe b a = true :=
  charListLe_total a.data b.data

theorem strLe_antisymm {a b : String} (hab : strLe a b = true)
    (hba : strLe b a = true) : a = b := by
  cases a; cases b
  exact congrArg String.mk (charListLe_antisymm hab hba)

instance : IsTotal (String × JVal) keyLe :=
  ⟨fun p q => strLe_total p.1 q.1⟩

instance : IsTrans (String × JVal) keyLe :=
  ⟨fun _ _ _ hab hbc => charListLe_trans hab hbc⟩

/-- Two lists of pairs that are permutations of each other, both sorted by
key, with no duplicate key, are equal. -/
theorem eq_of_perm_of_sorted_keyNodup :
    ∀ (l1 l2 : List (String × JVal)), l1.Perm l2 → l1.Sorted keyLe →
      l2.Sorted keyLe → (l1.map Prod.fst).Nodup → l1 = l2 := by
  intro l1
  induction l1 with
  | nil =>
      intro l2 hp _ _ _
      exact (List.Perm.nil_eq hp).symm.symm ▸ rfl
  | cons a t1 ih =>
      intro l2 hp hs1 hs2 hnd
      cases l2 with
      | nil => exact absurd hp.symm (by simp)
      | cons b t2 =>
          have hab : a = b := by
            have haMem : a ∈ b :: t2 := hp.subset (List.mem_cons_self a t1)
            rcases List.mem_cons.mp haMem with h | haT2
            · exact h
            · have hbMem : b ∈ a :: t1 := hp.symm.subset (List.mem_cons_self b t2)
              rcases List.mem_cons.mp hbMem with h | hbT1
              · exact h.symm
              · have h1 : keyLe a b := (List.sorted_cons.mp hs1).1 b hbT1
                have h2 : keyLe b a := (List.sorted_cons.mp hs2).1 a haT2
                have hk : a.1 = b.1 := strLe_antisymm h1 h2
                have : a.1 ∈ t1.map Prod.fst := hk ▸ List.mem_map_of_mem Prod.fst hbT1
                exact absurd this (List.nodup_cons.mp hnd).1
          subst hab
          have hpt : t1.Perm t2 := hp.cons_inv
          have := ih t2 hpt (List.sorted_cons.mp hs1).2 (List.sorted_cons.mp hs2).2
            (List.nodup_cons.mp hnd).2
          exact congrArg (a :: ·) this

/-- Key sorting is insensitive to the submission order of distinct keys. -/
theorem sortPairs_eq_of_perm (l1 l2 : List (String × JVal)) (hp : l1.Perm l2)
    (hnd : (l1.map Prod.fst).Nodup) : sortPairs l1 = sortPairs l2 := by
  have hperm : (sortPairs l1).Perm (sortPairs l2) :=
    (List.perm_insertionSort keyLe l1).trans (hp.trans (List.perm_insertionSort keyLe l2).symm)
  have hnd1 : ((sortPairs l1).map Prod.fst).Nodup :=
    (((List.perm_insertionSort keyLe l1).map Prod.fst).nodup_iff).mpr hnd
  exact eq_of_perm_of_sorted_keyNodup _ _ hperm
    (List.sorted_insertionSort keyLe l1) (List.sorted_insertionSort keyLe l2) hnd1

/-- C5: for parameter dictionaries equal as maps (same pairs, distinct keys,
any submission order), `_generate_key` produces the same key string. -/
theorem generateKey_order_independent (source : String) (p1 p2 : List (String × JVal))
    (hp : p1.Perm p2) (hnd : (p1.map Prod.fst).Nodup) :
    generateKey source p1 = generateKey source p2 := by
  unfold generateKey jsonDumpsSorted
  rw [sortPairs_eq_of_perm p1 p2 hp hnd]

/-! ## Anomaly severity for out-of-range temperatures (claim C1) -/

/-- The out-of-range message never contains the substring `"None"` (its only
letters come from fixed words without a capital N, and the interpolated
number has no letters at all). -/
theorem none_not_in_range_msg (q : ℚ) :
    pyContains ("Temperatura fuera de rango válido: " ++ pyNumRepr q ++
      "°C (rango esperado: -50 a 60°C)") "None" = false := by
  unfold pyContains
  rw [decide_eq_false_iff_not]
  intro hinf
  have hN : 'N' ∈ ("Temperatura fuera de rango válido: " ++ pyNumRepr q ++
      "°C (rango esperado: -50 a 60°C)").data :=
    hinf.sublist.subset (by decide : 'N' ∈ "None".data)
  rw [String.data_append, String.data_append] at hN
  rcases List.mem_append.mp hN with h | h
  · rcases List.mem_append.mp h with h0 | h0
    · exact absurd h0 (by decide)
    · exact capitalN_not_mem_pyNumChars q h0
  · exact absurd h (by decide)

/-- With an out-of-range numeric temperature, the first detector block emits
exactly one anomaly: the range message with severity `"warning"`. -/
theorem daTemp_out_of_range (data : PyRec) (location : String) (q : ℚ)
    (hq : rlookup data "temperature" = some (Val.vnum q)) (hr : q < -50 ∨ q > 60) :
    daTemp data location =
      [⟨"temperature", Val.vnum q,
        "Temperatura fuera de rango válido: " ++ pyNumRepr q ++
          "°C (rango esperado: -50 a 60°C)", "warning"⟩] := by
  have hv : validate_temperature (Val.vnum q) location =
      (false, some ("Temperatura fuera de rango válido: " ++ pyNumRepr q ++
        "°C (rango esperado: -50 a 60°C)")) := by
    simp only [validate_temperature]
    rw [if_pos hr]
  simp [daTemp, hq, hv, none_not_in_range_msg q]

theorem daHum_field (data : PyRec) : ∀ a ∈ daHum data, a.field = "humidity" := by
  intro a ha
  unfold daHum at ha
  cases hl : rlookup data "humidity" with
  | none => rw [hl] at ha; simp at ha
  | some v =>
      rw [hl] at ha
      by_cases hv : (validate_humidity v).1 = true
      · simp [hv] at ha
      · simp [hv] at ha
        rw [ha]

theorem daPres_field (data : PyRec) : ∀ a ∈ daPres data, a.field = "pressure" := by
  intro a ha
  unfold daPres at ha
  cases hl : rlookup data "pressure" with
  | none => rw [hl] at ha; simp at ha
  | some v =>
      rw [hl] at ha
      by_cases hv : (validate_pressure v "hPa").1 = true
      · simp [hv] at ha
      · simp [hv] at ha
        rw [ha]

theorem daTs_field (data : PyRec) : ∀ a ∈ daTs data, a.field = "timestamp" := by
  intro a ha
  unfold daTs at ha
  cases hl : rlookup data "timestamp" with
  | none => rw [hl] at ha; simp at ha
  | some v =>
      rw [hl] at ha
      by_cases hv : (validate_timestamp v).1 = true
      · simp [hv] at ha
      · simp [hv] at ha
        rw [ha]

theorem daCritFor_field (data : PyRec) (f : String) :
    ∀ a ∈ daCritFor data f, a.field = f := by
  intro a ha
  unfold daCritFor at ha
  cases hl : rlookup data f with
  | none => rw [hl] at ha; simp at ha; rw [ha]
  | some v =>
      rw [hl] at ha
      cases v <;> simp at ha <;> rw [ha]

theorem daCritFor_of_num (data : PyRec) (f : String) (q : ℚ)
    (hq : rlookup data f = some (Val.vnum q)) : daCritFor data f = [] := by
  unfold daCritFor
  rw [hq]

theorem daExtreme_severity (data : PyRec) (location : String) :
    ∀ a ∈ daExtreme data location, a.severity = "warning" := by
  intro a ha
  unfold daExtreme at ha
  cases hl : rlookup data "temperature" with
  | none => rw [hl] at ha; simp at ha
  | some v =>
      rw [hl] at ha
      cases v with
      | vnum q =>
          by_cases hb : q < 0 ∨ q > 30
          · simp only [if_pos hb, List.mem_singleton] at ha
            rw [ha]
          · simp [hb] at ha
      | vnone => simp at ha
      | vstr s => simp at ha
      | vlist xs => simp at ha
      | vdict fs => simp at ha

/-- C1 (amended): an out-of-range numeric temperature is reported by
`detect_anomalies` as a `"warning"`-severity anomaly carrying the range
message, and no `"error"`-severity anomaly for the field `temperature` is
produced (the severity expression `"error" if "None" in str(error) else
"warning"` yields `"error"` only for a `None` temperature). -/
theorem detect_anomalies_out_of_range_temp (data : PyRec) (location : String) (q : ℚ)
    (hq : rlookup data "temperature" = some (Val.vnum q)) (hr : q < -50 ∨ q > 60) :
    (⟨"temperature", Val.vnum q,
      "Temperatura fuera de rango válido: " ++ pyNumRepr q ++
        "°C (rango esperado: -50 a 60°C)", "warning"⟩ : Anomaly)
        ∈ detect_anomalies data location
    ∧ ∀ a ∈ detect_anomalies data location, a.field = "temperature" → a.severity ≠ "error" := by
  constructor
  · unfold detect_anomalies
    rw [daTemp_out_of_range data location q hq hr]
    simp
  · intro a ha hf
    unfold detect_anomalies at ha
    simp only [List.mem_append] at ha
    rcases ha with ((((h1 | h2) | h3) | h4) | h5) | h6
    · rw [daTemp_out_of_range data location q hq hr] at h1
      simp at h1
      rw [h1]
      simp
    · have hfld := daHum_field data a h2
      rw [hf] at hfld
      exact absurd hfld (by decide)
    · have hfld := daPres_field data a h3
      rw [hf] at hfld
      exact absurd hfld (by decide)
    · have hfld := daTs_field data a h4
      rw [hf] at hfld
      exact absurd hfld (by decide)
    · unfold daCrit at h5
      rcases List.mem_append.mp h5 with h50 | h50
      · rw [daCritFor_of_num data "temperature" q hq] at h50
        simp at h50
      · have hfld := daCritFor_field data "humidity" a h50
        rw [hf] at hfld
        exact absurd hfld (by decide)
    · have hsev := daExtreme_severity data location a h6
      rw [hsev]
      simp

/-- C1 witness: the record `{temperature: 150}` instantiates the amended
claim. -/
theorem detect_anomalies_out_of_range_temp_witness :
    (rlookup [("temperature", Val.vnum 150)] "temperature" = some (Val.vnum 150)
      ∧ ((150 : ℚ) < -50 ∨ (150 : ℚ) > 60))
    ∧ ((⟨"temperature", Val.vnum 150,
        "Temperatura fuera de rango válido: " ++ pyNumRepr 150 ++
          "°C (rango esperado: -50 a 60°C)", "warning"⟩ : Anomaly)
          ∈ detect_anomalies [("temperature", Val.vnum 150)] "Medellín"
      ∧ ∀ a ∈ detect_anomalies [("temperature", Val.vnum 150)] "Medellín",
          a.field = "temperature" → a.severity ≠ "error") :=
  ⟨⟨rfl, by norm_num⟩,
   detect_anomalies_out_of_range_temp _ "Medellín" 150 rfl (by norm_num)⟩

set_option maxRecDepth 40000 in
/-- C1 counterexample: on `{temperature: 150}` the detector produces *no*
anomaly for the field `temperature` with severity `"error"` (the spec's
claimed error-severity flag does not exist; the out-of-range finding is a
`"warning"`). -/
theorem detect_anomalies_temp150_no_error_severity :
    (detect_anomalies [("temperature", Val.vnum 150)] "Medellín").filter
      (fun a => a.field == "temperature" && a.severity == "error") = [] := by
  rfl

/-! ## Kelvin conversion round-trip (claim C8) -/

/-- C8 counterexample: the Kelvin heuristic is keyed off the provider
identity.  For a non-OpenWeatherMap source, a temperature of 300 (inside
`(223.15, 333.15)` and `> 100`) is *not* converted — it stays 300 through
`_convert_units` and `standardize_data` — and 300 then fails
`validate_temperature`. -/
theorem convert_units_non_owm_cx :
    rlookup (convert_units [("temperature", Val.vnum 300)] "SIATA") "temperature"
        = some (Val.vnum 300)
    ∧ rlookup (standardize_data [("temperature", Val.vnum 300)] "SIATA"
        "2024-01-01T00:00:00") "temperature" = some (Val.vnum 300)
    ∧ (validate_temperature (Val.vnum 300) "Medellín").1 = false := by
  refine ⟨rfl, rfl, rfl⟩

/-- C8 (amended): for the provider the heuristic applies to
(`OpenWeatherMap`), a temperature `T > 100` is replaced by `T − 273.15`, and
for `T ∈ (223.15, 333.15)` the converted value passes the `[-50, 60]`
validation. -/
theorem convert_units_kelvin_roundtrip (data : PyRec) (q : ℚ) (location : String)
    (hq : rlookup data "temperature" = some (Val.vnum q))
    (h100 : q > 100) (hlo : 223.15 < q) (hhi : q < 333.15) :
    rlookup (convert_units data "OpenWeatherMap") "temperature"
        = some (Val.vnum (q - 273.15))
    ∧ (validate_temperature (Val.vnum (q - 273.15)) location).1 = true := by
  have hq0 : q ≠ 0 := ne_of_gt (by linarith)
  have htmp : convertTemp data "OpenWeatherMap"
      = rupsert data "temperature" (Val.vnum (q - 273.15)) := by
    simp [convertTemp, hq, hq0, h100]
  have hlk : rlookup (rupsert data "temperature" (Val.vnum (q - 273.15))) "temperature"
      = some (Val.vnum (q - 273.15)) := rlookup_rupsert_self _ _ _
  constructor
  · unfold convert_units
    rw [htmp]
    unfold convertWind
    cases hws : rlookup (rupsert data "temperature" (Val.vnum (q - 273.15))) "wind_speed" with
    | none => exact hlk
    | some w =>
        cases w with
        | vnum wq =>
            by_cases hwz : wq = 0
            · simp only [hwz, ne_eq, not_true_eq_false, if_false, ite_false]
              simpa using hlk
            · simp only [ne_eq, hwz, not_false_eq_true, if_true, ite_true, if_pos rfl]
              rw [rlookup_rupsert_ne _ _ _ _ (by decide)]
              exact hlk
        | vnone => exact hlk
        | vstr s => exact hlk
        | vlist xs => exact hlk
        | vdict fs => exact hlk
  · simp only [validate_temperature]
    rw [if_neg]
    intro h
    rcases h with h | h
    · linarith
    · linarith

/-- C8 witness: `T = 300` from OpenWeatherMap converts to `26.85` and
validates. -/
theorem convert_units_kelvin_roundtrip_witness :
    (rlookup [("temperature", Val.vnum 300)] "temperature" = some (Val.vnum 300)
      ∧ (300 : ℚ) > 100 ∧ (223.15 : ℚ) < 300 ∧ (300 : ℚ) < 333.15)
    ∧ (rlookup (convert_units [("temperature", Val.vnum 300)] "OpenWeatherMap") "temperature"
          = some (Val.vnum (300 - 273.15))
      ∧ (validate_temperature (Val.vnum (300 - 273.15)) "Medellín").1 = true) :=
  ⟨⟨rfl, by norm_num, by norm_num, by norm_num⟩,
   convert_units_kelvin_roundtrip _ 300 "Medellín" rfl (by norm_num) (by norm_num) (by norm_num)⟩

/-! ## Cache TTL, overwrite and invalidation (claims C3, C4) -/

/-- C4: in the memory tier, after `set` at `t0` a `get` strictly before the
TTL elapses returns the stored value, a `get` at or after the TTL behaves as
a miss, and a second `set` for the same `(source, params)` unconditionally
overwrites, so an in-TTL `get` returns the last value written. -/
theorem cache_ttl_expiry_and_overwrite (st : MemCache) (ttl : ℚ) (source : String)
    (params : List (String × JVal)) (v v1 v2 : Val) (t0 t t' t1 t2 : ℚ) :
    ((t - t0 < ttl →
        (cmGet ((cmSet st source params v t0).1) ttl source params t).1 = some v)
      ∧ (ttl ≤ t' - t0 →
        (cmGet ((cmSet st source params v t0).1) ttl source params t').1 = none))
    ∧ (t2 - t1 < ttl →
        (cmGet ((cmSet ((cmSet st source params v1 t0).1) source params v2 t1).1)
            ttl source params t2).1 = some v2) := by
  refine ⟨⟨fun h => ?_, fun h => ?_⟩, fun h => ?_⟩
  · simp [cmGet, cmSet, rlookup_rupsert_self, h]
  · simp [cmGet, cmSet, rlookup_rupsert_self, not_lt.mpr h]
  · simp [cmGet, cmSet, rlookup_rupsert_self, h]

/-- C4 witness: `ttl = 900 s`, stored at `t0 = 0`: a get at `t = 10` hits,
a get at `t' = 1000` misses, and after a second set at `t1 = 5` a get at
`t2 = 6` returns the overwritten value. -/
theorem cache_ttl_expiry_and_overwrite_witness :
    ((10 : ℚ) - 0 < 900 ∧ (900 : ℚ) ≤ 1000 - 0 ∧ (6 : ℚ) - 5 < 900)
    ∧ (cmGet ((cmSet ⟨[], []⟩ "siata" [("city", JVal.jstr "Medellin")]
          (Val.vnum 25) 0).1) 900 "siata" [("city", JVal.jstr "Medellin")] 10).1
        = some (Val.vnum 25)
    ∧ (cmGet ((cmSet ⟨[], []⟩ "siata" [("city", JVal.jstr "Medellin")]
          (Val.vnum 25) 0).1) 900 "siata" [("city", JVal.jstr "Medellin")] 1000).1
        = none
    ∧ (cmGet ((cmSet ((cmSet ⟨[], []⟩ "siata" [("city", JVal.jstr "Medellin")]
            (Val.vnum 1) 0).1) "siata" [("city", JVal.jstr "Medellin")]
          (Val.vnum 2) 5).1) 900 "siata" [("city", JVal.jstr "Medellin")] 6).1
        = some (Val.vnum 2) := by
  have h := cache_ttl_expiry_and_overwrite ⟨[], []⟩ 900 "siata"
    [("city", JVal.jstr "Medellin")] (Val.vnum 25) (Val.vnum 1) (Val.vnum 2) 0 10 1000 5 6
  exact ⟨⟨by norm_num, by norm_num, by norm_num⟩,
    h.1.1 (by norm_num), h.1.2 (by norm_num), h.2 (by norm_num)⟩

set_option maxRecDepth 400000 in
/-- C3: the claim is right and the code is wrong.  In the memory tier the
stored keys are MD5 hex digests, not source-prefixed strings, so
`invalidate("siata")`, which filters keys by `k.startswith("siata")`, deletes
*nothing*: it returns 0, leaves the cache and timestamp dicts unchanged, and
a subsequent in-TTL `get` still hits. -/
theorem invalidate_by_source_removes_nothing :
    (cmInvalidate ((cmSet ⟨[], []⟩ "siata" [("city", JVal.jstr "Medellin")]
        (Val.vnum 25) 0).1) (some "siata")).1 = 0
    ∧ (cmInvalidate ((cmSet ⟨[], []⟩ "siata" [("city", JVal.jstr "Medellin")]
        (Val.vnum 25) 0).1) (some "siata")).2.cache
      = ((cmSet ⟨[], []⟩ "siata" [("city", JVal.jstr "Medellin")] (Val.vnum 25) 0).1).cache
    ∧ (cmInvalidate ((cmSet ⟨[], []⟩ "siata" [("city", JVal.jstr "Medellin")]
        (Val.vnum 25) 0).1) (some "siata")).2.timestamps
      = ((cmSet ⟨[], []⟩ "siata" [("city", JVal.jstr "Medellin")] (Val.vnum 25) 0).1).timestamps
    ∧ (cmGet ((cmSet ⟨[], []⟩ "siata" [("city", JVal.jstr "Medellin")]
        (Val.vnum 25) 0).1) 900 "siata" [("city", JVal.jstr "Medellin")] 10).1
      = some (Val.vnum 25) := by
  refine ⟨rfl, rfl, rfl, ?_⟩
  simp [cmGet, cmSet, rlookup_rupsert_self]
  norm_num

/-! ## Retry with exponential backoff (claim C6) -/

theorem retryGo_ok {E α : Type} (f : Nat → Except E α) (factor : ℚ) :
    ∀ (k rem attempt : Nat) (waited : ℚ) (last : Option E) (v : α) (e : Nat → E),
      k < rem → (∀ i, i < k → f (attempt + i) = .error (e i)) →
      f (attempt + k) = .ok v →
      retryGo f factor rem attempt waited last =
        (.ok v, waited + ∑ i ∈ Finset.range k, factor ^ (attempt + i)) := by
  intro k
  induction k with
  | zero =>
      intro rem attempt waited last v e hk herr hok
      obtain ⟨r, rfl⟩ : ∃ r, rem = r + 1 := ⟨rem - 1, by omega⟩
      rw [show attempt + 0 = attempt from rfl] at hok
      simp [retryGo, hok]
  | succ k ih =>
      intro rem attempt waited last v e hk herr hok
      obtain ⟨r, rfl⟩ : ∃ r, rem = r + 1 := ⟨rem - 1, by omega⟩
      have h0 : f attempt = .error (e 0) := by
        have := herr 0 (by omega)
        simpa using this
      have hr : 0 < r := by omega
      have hrec := ih r (attempt + 1) (waited + factor ^ attempt) (some (e 0)) v
        (fun i => e (i + 1)) (by omega)
        (fun i hi => by
          rw [show attempt + 1 + i = attempt + (i + 1) by omega]
          exact herr (i + 1) (by omega))
        (by
          rw [show attempt + 1 + k = attempt + (k + 1) by omega]
          exact hok)
      simp only [retryGo, h0, hr, if_pos]
      rw [hrec]
      have hsum : ∑ i ∈ Finset.range k, factor ^ (attempt + 1 + i)
          = ∑ i ∈ Finset.range k, factor ^ (attempt + (i + 1)) :=
        Finset.sum_congr rfl (fun i _ => by rw [show attempt + 1 + i = attempt + (i + 1) by omega])
      rw [hsum, Finset.sum_range_succ']
      simp only [Nat.add_zero, Prod.mk.injEq]
      exact ⟨trivial, by ring⟩

/-- One-step unfolding of the retry loop on a failed attempt. -/
theorem retryGo_step_error {E α : Type} (f : Nat → Except E α) (factor : ℚ)
    (rem attempt : Nat) (waited : ℚ) (last : Option E) (e : E)
    (h : f attempt = .error e) :
    retryGo f factor (rem + 1) attempt waited last =
      retryGo f factor rem (attempt + 1)
        (if rem > 0 then waited + factor ^ attempt else waited) (some e) := by
  simp [retryGo, h]

theorem retryGo_allfail {E α : Type} (f : Nat → Except E α) (factor : ℚ) :
    ∀ (rem attempt : Nat) (waited : ℚ) (last : Option E) (e : Nat → E),
      1 ≤ rem → (∀ i, i < rem → f (attempt + i) = .error (e i)) →
      retryGo f factor rem attempt waited last =
        (.error (some (e (rem - 1))),
         waited + ∑ i ∈ Finset.range (rem - 1), factor ^ (attempt + i)) := by
  intro rem
  induction rem with
  | zero => intro attempt waited last e h1; omega
  | succ r ih =>
      intro attempt waited last e h1 herr
      have h0 : f attempt = .error (e 0) := by
        have := herr 0 (by omega)
        simpa using this
      cases r with
      | zero =>
          simp [retryGo, h0]
      | succ r' =>
          have hrec := ih (attempt + 1) (waited + factor ^ attempt) (some (e 0))
            (fun i => e (i + 1)) (by omega)
            (fun i hi => by
              rw [show attempt + 1 + i = attempt + (i + 1) by omega]
              exact herr (i + 1) (by omega))
          rw [retryGo_step_error f factor (r' + 1) attempt waited last (e 0) h0,
            if_pos (Nat.succ_pos r'), hrec]
          have hsum : ∑ i ∈ Finset.range (r' + 1 - 1), factor ^ (attempt + 1 + i)
              = ∑ i ∈ Finset.range r', factor ^ (attempt + (i + 1)) := by
            rw [show r' + 1 - 1 = r' from rfl]
            exact Finset.sum_congr rfl
              (fun i _ => by rw [show attempt + 1 + i = attempt + (i + 1) by omega])
          rw [hsum]
          rw [show r' + 1 + 1 - 1 = r' + 1 from rfl, show r' + 1 - 1 = r' from rfl]
          rw [Finset.sum_range_succ']
          simp only [Nat.add_zero, Prod.mk.injEq]
          exact ⟨trivial, by ring⟩

/-- C6: `_retry_with_backoff` returns the operation's result as soon as an
attempt succeeds, having slept `factor^i` before the retry that follows each
failed attempt `i` (so a success at attempt `k` waited `∑_{i<k} factor^i`);
and when all `maxAttempts ≥ 1` attempts fail it re-raises the last
exception, with no wait after the final attempt
(total `∑_{i<maxAttempts-1} factor^i`). -/
theorem retry_with_backoff_spec {E α : Type} (f : Nat → Except E α) (factor : ℚ)
    (maxAttempts : Nat) (hmax : 1 ≤ maxAttempts) :
    (∀ (k : Nat) (v : α) (e : Nat → E), k < maxAttempts →
        (∀ i, i < k → f i = .error (e i)) → f k = .ok v →
        retry_with_backoff f factor maxAttempts
          = (.ok v, ∑ i ∈ Finset.range k, factor ^ i))
    ∧ (∀ e : Nat → E, (∀ i, i < maxAttempts → f i = .error (e i)) →
        retry_with_backoff f factor maxAttempts
          = (.error (some (e (maxAttempts - 1))),
             ∑ i ∈ Finset.range (maxAttempts - 1), factor ^ i)) := by
  constructor
  · intro k v e hk herr hok
    have h := retryGo_ok f factor k maxAttempts 0 0 none v e hk
      (by simpa using herr) (by simpa using hok)
    simpa [retry_with_backoff] using h
  · intro e herr
    have h := retryGo_allfail f factor maxAttempts 0 0 none e hmax (by simpa using herr)
    simpa [retry_with_backoff] using h

/-- C6 witness: an operation failing twice then succeeding, with
`maxAttempts = 3` and `factor = 2`, returns the success having waited
`2^0 + 2^1 = 3` seconds; one that always fails re-raises the last error
having waited the same `3` seconds (none after the final attempt). -/
theorem retry_with_backoff_spec_witness :
    ((1 : Nat) ≤ 3 ∧ (2 : Nat) < 3
      ∧ (∀ i, i < 2 →
          (fun j => if j < 2 then (Except.error "boom" : Except String Nat)
            else Except.ok 42) i = .error "boom")
      ∧ (fun j => if j < 2 then (Except.error "boom" : Except String Nat)
          else Except.ok 42) 2 = .ok 42)
    ∧ retry_with_backoff
        (fun j => if j < 2 then (Except.error "boom" : Except String Nat) else Except.ok 42)
        2 3 = (.ok 42, 3)
    ∧ retry_with_backoff (fun _ => (Except.error "boom" : Except String Nat)) 2 3
        = (.error (some "boom"), 3) := by
  have h1 := (retry_with_backoff_spec
    (fun j => if j < 2 then (Except.error "boom" : Except String Nat) else Except.ok 42)
    2 3 (by norm_num)).1 2 42 (fun _ => "boom") (by norm_num)
    (fun i hi => by
      interval_cases i <;> rfl)
    (by rfl)
  have h2 := (retry_with_backoff_spec (fun _ => (Except.error "boom" : Except String Nat))
    2 3 (by norm_num)).2 (fun _ => "boom") (fun i hi => rfl)
  refine ⟨⟨by norm_num, by norm_num, fun i hi => by interval_cases i <;> rfl, by rfl⟩, ?_, ?_⟩
  · rw [h1]
    norm_num [Finset.sum_range_succ]
  · rw [h2]
    norm_num [Finset.sum_range_succ]

/-! ## Provider failure isolation (claim C7) -/

theorem gdfl_foldl (ttl now : ℚ) (nowIso : String) (lat lon : ℚ) :
    ∀ (sources : List WSource) (rs : List Val) (es : List String) (cm : MemCache),
      sources.foldl (gdflStep false ttl now nowIso lat lon) (rs, es, cm) =
        (rs ++ sources.filterMap (fun s =>
            match s.current with
            | .ok raw => some (Val.vdict (standardize_data raw s.name nowIso))
            | .error _ => none),
         es ++ sources.filterMap (fun s =>
            match s.current with
            | .ok _ => none
            | .error err => some ("Error al obtener datos de " ++ s.name ++ ": " ++ err)),
         cm) := by
  intro sources
  induction sources with
  | nil =>
      intro rs es cm
      simp
  | cons s rest ih =>
      intro rs es cm
      cases hcur : s.current with
      | ok raw =>
          simp only [List.foldl_cons, gdflStep, hcur, if_false, Bool.false_eq_true, ite_false]
          rw [ih]
          simp [List.filterMap_cons, hcur]
      | error err =>
          simp only [List.foldl_cons, gdflStep, hcur, if_false, Bool.false_eq_true, ite_false]
          rw [ih]
          simp [List.filterMap_cons, hcur]

/-- C7: with several providers, `get_data_for_location` returns the
standardized observation of every provider whose fetch succeeded, in order,
and records one error log entry per failing provider; a failing provider
never aborts the others (cache disabled, no name filtering). -/
theorem get_data_for_location_isolates_failures (sources : List WSource) (cm : MemCache)
    (ttl now : ℚ) (nowIso : String) (lat lon : ℚ) :
    get_data_for_location sources none false cm ttl now nowIso lat lon =
      (sources.filterMap (fun s =>
          match s.current with
          | .ok raw => some (Val.vdict (standardize_data raw s.name nowIso))
          | .error _ => none),
       sources.filterMap (fun s =>
          match s.current with
          | .ok _ => none
          | .error err => some ("Error al obtener datos de " ++ s.name ++ ": " ++ err)),
       cm) := by
  have h := gdfl_foldl ttl now nowIso lat lon sources [] [] cm
  simpa [get_data_for_location] using h

/-! ## Aggregation lemmas (claims C2, C9) -/

theorem rlookup_addStats_other (dl : List PyRec) (acc : PyRec) (g k : String)
    (h1 : k ≠ g ++ "_mean") (h2 : k ≠ g ++ "_min") (h3 : k ≠ g ++ "_max")
    (h4 : k ≠ g ++ "_count") :
    rlookup (addStats dl acc g) k = rlookup acc k := by
  unfold addStats
  by_cases he : (collectVals dl g).isEmpty = true
  · rw [if_pos he]
  · rw [if_neg he, rlookup_rupsert_ne _ _ _ _ h4, rlookup_rupsert_ne _ _ _ _ h3,
      rlookup_rupsert_ne _ _ _ _ h2, rlookup_rupsert_ne _ _ _ _ h1]

theorem addStats_of_empty (dl : List PyRec) (acc : PyRec) (g : String)
    (he : collectVals dl g = []) : addStats dl acc g = acc := by
  unfold addStats
  rw [if_pos (by simp [he])]

theorem rlookup_addStats_mean (dl : List PyRec) (acc : PyRec) (g : String)
    (hne : (collectVals dl g).isEmpty = false)
    (h1 : g ++ "_mean" ≠ g ++ "_min") (h2 : g ++ "_mean" ≠ g ++ "_max")
    (h3 : g ++ "_mean" ≠ g ++ "_count") :
    rlookup (addStats dl acc g) (g ++ "_mean")
      = some (.vnum ((collectVals dl g).sum / ((collectVals dl g).length : ℚ))) := by
  unfold addStats
  rw [if_neg (by simp [hne]), rlookup_rupsert_ne _ _ _ _ h3, rlookup_rupsert_ne _ _ _ _ h2,
    rlookup_rupsert_ne _ _ _ _ h1, rlookup_rupsert_self]

theorem rlookup_addStats_min (dl : List PyRec) (acc : PyRec) (g : String)
    (hne : (collectVals dl g).isEmpty = false)
    (h1 : g ++ "_min" ≠ g ++ "_max") (h2 : g ++ "_min" ≠ g ++ "_count") :
    rlookup (addStats dl acc g) (g ++ "_min")
      = some (.vnum (((collectVals dl g).min?).getD 0)) := by
  unfold addStats
  rw [if_neg (by simp [hne]), rlookup_rupsert_ne _ _ _ _ h2, rlookup_rupsert_ne _ _ _ _ h1,
    rlookup_rupsert_self]

theorem rlookup_addStats_max (dl : List PyRec) (acc : PyRec) (g : String)
    (hne : (collectVals dl g).isEmpty = false)
    (h1 : g ++ "_max" ≠ g ++ "_count") :
    rlookup (addStats dl acc g) (g ++ "_max")
      = some (.vnum (((collectVals dl g).max?).getD 0)) := by
  unfold addStats
  rw [if_neg (by simp [hne]), rlookup_rupsert_ne _ _ _ _ h1, rlookup_rupsert_self]

theorem rlookup_addStats_count (dl : List PyRec) (acc : PyRec) (g : String)
    (hne : (collectVals dl g).isEmpty = false) :
    rlookup (addStats dl acc g) (g ++ "_count")
      = some (.vnum ((collectVals dl g).length : ℚ)) := by
  unfold addStats
  rw [if_neg (by simp [hne]), rlookup_rupsert_self]

theorem rlookup_addHeadline_other (acc : PyRec) (g k : String) (h : k ≠ g) :
    rlookup (addHeadline acc g) k = rlookup acc k := by
  unfold addHeadline
  cases hm : rlookup acc (g ++ "_mean") with
  | none => rfl
  | some m => exact rlookup_rupsert_ne _ _ _ _ h

theorem rlookup_addHeadline_self (acc : PyRec) (g : String) (m : Val)
    (hm : rlookup acc (g ++ "_mean") = some m) :
    rlookup (addHeadline acc g) g = some m := by
  unfold addHeadline
  rw [hm]
  exact rlookup_rupsert_self _ _ _

theorem addHeadline_of_none (acc : PyRec) (g : String)
    (hm : rlookup acc (g ++ "_mean") = none) : addHeadline acc g = acc := by
  unfold addHeadline
  rw [hm]

/-- C2: for each aggregated field, `combine_sources` collects the non-`None`
values across the inputs and, when at least one exists, emits
`field_mean = sum/count`, `field_min`, `field_max`, `field_count`, and sets
the headline field to the mean; with zero values it emits none of these
keys. -/
theorem combine_sources_field_stats (dl : List PyRec) (nowIso : String) (f : String)
    (hf : f ∈ numericFields) (hnil : dl ≠ []) :
    ((collectVals dl f).isEmpty = false →
      rlookup (combine_sources dl nowIso) (f ++ "_mean")
          = some (.vnum ((collectVals dl f).sum / ((collectVals dl f).length : ℚ)))
      ∧ rlookup (combine_sources dl nowIso) (f ++ "_min")
          = some (.vnum (((collectVals dl f).min?).getD 0))
      ∧ rlookup (combine_sources dl nowIso) (f ++ "_max")
          = some (.vnum (((collectVals dl f).max?).getD 0))
      ∧ rlookup (combine_sources dl nowIso) (f ++ "_count")
          = some (.vnum ((collectVals dl f).length : ℚ))
      ∧ rlookup (combine_sources dl nowIso) f
          = some (.vnum ((collectVals dl f).sum / ((collectVals dl f).length : ℚ))))
    ∧ (collectVals dl f = [] →
      rlookup (combine_sources dl nowIso) (f ++ "_mean") = none
      ∧ rlookup (combine_sources dl nowIso) (f ++ "_min") = none
      ∧ rlookup (combine_sources dl nowIso) (f ++ "_max") = none
      ∧ rlookup (combine_sources dl nowIso) (f ++ "_count") = none
      ∧ rlookup (combine_sources dl nowIso) f = none) := by
  have hnil' : dl.isEmpty = false := by simpa [List.isEmpty_iff] using hnil
  simp only [numericFields] at hf
  constructor
  · intro hne
    fin_cases hf <;>
      (refine ⟨?_, ?_, ?_, ?_, ?_⟩
       · simp only [combine_sources, hnil', Bool.false_eq_true, if_false, ite_false,
           numericFields, List.foldl_cons, List.foldl_nil]
         repeat first
           | rw [rlookup_addHeadline_other _ _ _ (by decide)]
           | rw [rlookup_addStats_other _ _ _ _ (by decide) (by decide) (by decide) (by decide)]
         exact rlookup_addStats_mean _ _ _ hne (by decide) (by decide) (by decide)
       · simp only [combine_sources, hnil', Bool.false_eq_true, if_false, ite_false,
           numericFields, List.foldl_cons, List.foldl_nil]
         repeat first
           | rw [rlookup_addHeadline_other _ _ _ (by decide)]
           | rw [rlookup_addStats_other _ _ _ _ (by decide) (by decide) (by decide) (by decide)]
         exact rlookup_addStats_min _ _ _ hne (by decide) (by decide)
       · simp only [combine_sources, hnil', Bool.false_eq_true, if_false, ite_false,
           numericFields, List.foldl_cons, List.foldl_nil]
         repeat first
           | rw [rlookup_addHeadline_other _ _ _ (by decide)]
           | rw [rlookup_addStats_other _ _ _ _ (by decide) (by decide) (by decide) (by decide)]
         exact rlookup_addStats_max _ _ _ hne (by decide)
       · simp only [combine_sources, hnil', Bool.false_eq_true, if_false, ite_false,
           numericFields, List.foldl_cons, List.foldl_nil]
         repeat first
           | rw [rlookup_addHeadline_other _ _ _ (by decide)]
           | rw [rlookup_addStats_other _ _ _ _ (by decide) (by decide) (by decide) (by decide)]
         exact rlookup_addStats_count _ _ _ hne
       · simp only [combine_sources, hnil', Bool.false_eq_true, if_false, ite_false,
           numericFields, List.foldl_cons, List.foldl_nil]
         repeat rw [rlookup_addHeadline_other _ _ _ (by decide)]
         refine rlookup_addHeadline_self _ _ _ ?_
         repeat first
           | rw [rlookup_addHeadline_other _ _ _ (by decide)]
           | rw [rlookup_addStats_other _ _ _ _ (by decide) (by decide) (by decide) (by decide)]
         exact rlookup_addStats_mean _ _ _ hne (by decide) (by decide) (by decide))
  · intro hemp
    fin_cases hf <;>
      (refine ⟨?_, ?_, ?_, ?_, ?_⟩ <;>
        (simp only [combine_sources, hnil', Bool.false_eq_true, if_false, ite_false,
           numericFields, List.foldl_cons, List.foldl_nil]
         repeat first
           | rw [rlookup_addHeadline_other _ _ _ (by decide)]
           | rw [rlookup_addStats_other _ _ _ _ (by decide) (by decide) (by decide) (by decide)]
           | rw [addStats_of_empty _ _ _ hemp]
           | rw [addHeadline_of_none _ _ (by
               repeat first
                 | rw [rlookup_addHeadline_other _ _ _ (by decide)]
                 | rw [rlookup_addStats_other _ _ _ _ (by decide) (by decide) (by decide) (by decide)]
                 | rw [addStats_of_empty _ _ _ hemp]
               rfl)]
         rfl))

/-- C2 witness: `combine` over temperatures 20, 22, 24 gives mean 22, min 20,
max 24, count 3, headline `temperature = 22`. -/
theorem combine_sources_field_stats_witness :
    ("temperature" ∈ numericFields
      ∧ ([[("temperature", Val.vnum 20)], [("temperature", Val.vnum 22)],
          [("temperature", Val.vnum 24)]] : List PyRec) ≠ []
      ∧ (collectVals [[("temperature", Val.vnum 20)], [("temperature", Val.vnum 22)],
          [("temperature", Val.vnum 24)]] "temperature").isEmpty = false)
    ∧ rlookup (combine_sources [[("temperature", Val.vnum 20)], [("temperature", Val.vnum 22)],
        [("temperature", Val.vnum 24)]] "now") ("temperature" ++ "_mean") = some (.vnum 22)
    ∧ rlookup (combine_sources [[("temperature", Val.vnum 20)], [("temperature", Val.vnum 22)],
        [("temperature", Val.vnum 24)]] "now") ("temperature" ++ "_min") = some (.vnum 20)
    ∧ rlookup (combine_sources [[("temperature", Val.vnum 20)], [("temperature", Val.vnum 22)],
        [("temperature", Val.vnum 24)]] "now") ("temperature" ++ "_max") = some (.vnum 24)
    ∧ rlookup (combine_sources [[("temperature", Val.vnum 20)], [("temperature", Val.vnum 22)],
        [("temperature", Val.vnum 24)]] "now") ("temperature" ++ "_count") = some (.vnum 3)
    ∧ rlookup (combine_sources [[("temperature", Val.vnum 20)], [("temperature", Val.vnum 22)],
        [("temperature", Val.vnum 24)]] "now") "temperature" = some (.vnum 22) := by
  have h := (combine_sources_field_stats
    [[("temperature", Val.vnum 20)], [("temperature", Val.vnum 22)],
      [("temperature", Val.vnum 24)]] "now" "temperature"
    (by simp [numericFields]) (by simp)).1 (by rfl)
  obtain ⟨hm, hmin, hmax, hc, hh⟩ := h
  have hv : collectVals [[("temperature", Val.vnum 20)], [("temperature", Val.vnum 22)],
      [("temperature", Val.vnum 24)]] "temperature" = [20, 22, 24] := rfl
  rw [hv] at hm hmin hmax hc hh
  refine ⟨⟨by simp [numericFields], by simp, by rfl⟩, ?_, ?_, ?_, ?_, ?_⟩
  · rw [hm]
    norm_num [List.sum_cons, List.sum_nil]
  · rw [hmin]
    rfl
  · rw [hmax]
    rfl
  · rw [hc]
    norm_num
  · rw [hh]
    norm_num [List.sum_cons, List.sum_nil]

/-- C9 (amended): `combine_sources` aggregates only temperature, humidity,
precipitation, wind_speed and pressure; it never emits
`wind_direction_mean` / `_min` / `_max` / `_count`, whatever the inputs
contain. -/
theorem combine_sources_no_wind_direction_stats (dl : List PyRec) (nowIso : String) :
    rlookup (combine_sources dl nowIso) "wind_direction_mean" = none
    ∧ rlookup (combine_sources dl nowIso) "wind_direction_min" = none
    ∧ rlookup (combine_sources dl nowIso) "wind_direction_max" = none
    ∧ rlookup (combine_sources dl nowIso) "wind_direction_count" = none := by
  by_cases hdl : dl.isEmpty = true
  · refine ⟨?_, ?_, ?_, ?_⟩ <;> simp [combine_sources, hdl, rlookup]
  · have hdl' : dl.isEmpty = false := by simpa using hdl
    refine ⟨?_, ?_, ?_, ?_⟩ <;>
      (simp only [combine_sources, hdl', Bool.false_eq_true, if_false, ite_false,
         numericFields, List.foldl_cons, List.foldl_nil]
       repeat first
         | rw [rlookup_addHeadline_other _ _ _ (by decide)]
         | rw [rlookup_addStats_other _ _ _ _ (by decide) (by decide) (by decide) (by decide)]
       rfl)

/-- C9 counterexample: a record carrying `wind_direction = 120` goes through
`combine_sources` without any `wind_direction_mean`/`min`/`max`/`count` key
being emitted (the field is absent from the aggregation list). -/
theorem combine_sources_wind_direction_cx :
    rlookup [("wind_direction", Val.vnum 120), ("source", Val.vstr "s1")] "wind_direction"
        = some (Val.vnum 120)
    ∧ rlookup (combine_sources [[("wind_direction", Val.vnum 120),
        ("source", Val.vstr "s1")]] "now") "wind_direction_mean" = none
    ∧ rlookup (combine_sources [[("wind_direction", Val.vnum 120),
        ("source", Val.vstr "s1")]] "now") "wind_direction_min" = none
    ∧ rlookup (combine_sources [[("wind_direction", Val.vnum 120),
        ("source", Val.vstr "s1")]] "now") "wind_direction_max" = none
    ∧ rlookup (combine_sources [[("wind_direction", Val.vnum 120),
        ("source", Val.vstr "s1")]] "now") "wind_direction_count" = none :=
  ⟨rfl, rfl, rfl, rfl, rfl⟩

/-! ## validate_and_clean frame behavior (claim C10) -/

theorem rlookup_cleanRec (d : PyRec) (k : String) :
    rlookup (cleanRec d) k = (rlookup d k).map (cleanVal k) := by
  induction d with
  | nil => rfl
  | cons p rest ih =>
      obtain ⟨k0, v0⟩ := p
      by_cases hk : k0 = k
      · subst hk
        simp [cleanRec, rlookup]
      · simp only [cleanRec, List.map_cons, rlookup, hk, if_false, ite_false]
        simpa [cleanRec] using ih

/-- C10 (amended): `validate_and_clean` leaves every key of the caller's
record other than `validation_errors` unchanged, and the precipitation
default (`None → 0.0`) appears only in the returned copy; but when critical
(error-severity) anomalies exist, `validation_errors` is attached to the
caller's record in place (the source mutates its argument before copying),
so the input does not stay unchanged. -/
theorem validate_and_clean_frame (data : PyRec) (location : String) :
    (∀ k, k ≠ "validation_errors" →
      rlookup (validate_and_clean data location).1 k = rlookup data k)
    ∧ (((detect_anomalies data location).filter (fun a => a.severity = "error")) ≠ [] →
      rlookup (validate_and_clean data location).1 "validation_errors"
        = some (.vlist (((detect_anomalies data location).filter
            (fun a => a.severity = "error")).map anomalyToVal)))
    ∧ (((detect_anomalies data location).filter (fun a => a.severity = "error")) = [] →
      (validate_and_clean data location).1 = data)
    ∧ (rlookup data "precipitation" = some Val.vnone →
      rlookup (validate_and_clean data location).1 "precipitation" = some Val.vnone
      ∧ rlookup (validate_and_clean data location).2 "precipitation" = some (Val.vnum 0)) := by
  have hsnd : (validate_and_clean data location).2
      = cleanRec (validate_and_clean data location).1 := rfl
  have hmut : ∀ k, k ≠ "validation_errors" →
      rlookup (validate_and_clean data location).1 k = rlookup data k := by
    intro k hk
    by_cases hc : ((detect_anomalies data location).filter
        (fun a => a.severity = "error")).isEmpty = true
    · simp [validate_and_clean, hc]
    · simp [validate_and_clean, hc, rlookup_rupsert_ne _ _ _ _ hk]
  refine ⟨hmut, ?_, ?_, ?_⟩
  · intro hcne
    have hc : ((detect_anomalies data location).filter
        (fun a => a.severity = "error")).isEmpty = false := by
      simpa [List.isEmpty_iff] using hcne
    simp [validate_and_clean, hc, rlookup_rupsert_self]
  · intro hceq
    simp [validate_and_clean, hceq]
  · intro hp
    have h1 := (hmut "precipitation" (by decide)).trans hp
    refine ⟨h1, ?_⟩
    rw [hsnd, rlookup_cleanRec, h1]
    rfl

set_option maxRecDepth 40000 in
/-- C10 witness: the record `{temperature: 150, precipitation: None}` has a
critical anomaly (missing humidity), so `validation_errors` lands in the
caller's record while the precipitation default appears only in the copy. -/
theorem validate_and_clean_frame_witness :
    (("temperature" : String) ≠ "validation_errors"
      ∧ ((detect_anomalies [("temperature", Val.vnum 150), ("precipitation", Val.vnone)]
          "Medellín").filter (fun a => a.severity = "error")) ≠ []
      ∧ rlookup [("temperature", Val.vnum 150), ("precipitation", Val.vnone)] "precipitation"
          = some Val.vnone)
    ∧ rlookup (validate_and_clean [("temperature", Val.vnum 150), ("precipitation", Val.vnone)]
          "Medellín").1 "temperature"
        = rlookup [("temperature", Val.vnum 150), ("precipitation", Val.vnone)] "temperature"
    ∧ rlookup (validate_and_clean [("temperature", Val.vnum 150), ("precipitation", Val.vnone)]
          "Medellín").1 "validation_errors"
        = some (.vlist (((detect_anomalies [("temperature", Val.vnum 150),
            ("precipitation", Val.vnone)] "Medellín").filter
              (fun a => a.severity = "error")).map anomalyToVal))
    ∧ rlookup (validate_and_clean [("temperature", Val.vnum 150), ("precipitation", Val.vnone)]
          "Medellín").1 "precipitation" = some Val.vnone
    ∧ rlookup (validate_and_clean [("temperature", Val.vnum 150), ("precipitation", Val.vnone)]
          "Medellín").2 "precipitation" = some (Val.vnum 0) := by
  have h := validate_and_clean_frame
    [("temperature", Val.vnum 150), ("precipitation", Val.vnone)] "Medellín"
  have hcrit : ((detect_anomalies [("temperature", Val.vnum 150), ("precipitation", Val.vnone)]
      "Medellín").filter (fun a => a.severity = "error")).length = 1 := rfl
  have hcne : ((detect_anomalies [("temperature", Val.vnum 150), ("precipitation", Val.vnone)]
      "Medellín").filter (fun a => a.severity = "error")) ≠ [] := by
    intro he
    rw [he] at hcrit
    simp at hcrit
  exact ⟨⟨by decide, hcne, rfl⟩, h.1 "temperature" (by decide), h.2.1 hcne,
    (h.2.2.2 rfl).1, (h.2.2.2 rfl).2⟩

set_option maxRecDepth 40000 in
/-- C10 counterexample: on `{temperature: 150}` the call attaches
`validation_errors` to the *caller's* record — the input does not come back
unchanged, contradicting the claim that validation errors appear only in the
returned copy. -/
theorem validate_and_clean_mutates_input_cx :
    (rlookup ((validate_and_clean [("temperature", Val.vnum 150)] "Medellín").1)
        "validation_errors").isSome = true
    ∧ (rlookup ([("temperature", Val.vnum 150)] : PyRec) "validation_errors").isSome = false
    ∧ (validate_and_clean [("temperature", Val.vnum 150)] "Medellín").1
        ≠ [("temperature", Val.vnum 150)] := by
  refine ⟨rfl, rfl, ?_⟩
  intro h
  have h2 : ((validate_and_clean [("temperature", Val.vnum 150)] "Medellín").1).length = 2 := rfl
  rw [h] at h2
  simp at h2

set_option maxRecDepth 400000 in
/-- C5 witness: `key("test", {a:1, b:2}) = key("test", {b:2, a:1})`. -/
theorem generateKey_order_independent_witness :
    (([("a", JVal.jnum 1), ("b", JVal.jnum 2)] : List (String × JVal)).Perm
        [("b", JVal.jnum 2), ("a", JVal.jnum 1)]
      ∧ (([("a", JVal.jnum 1), ("b", JVal.jnum 2)] : List (String × JVal)).map
          Prod.fst).Nodup)
    ∧ generateKey "test" [("a", JVal.jnum 1), ("b", JVal.jnum 2)]
        = generateKey "test" [("b", JVal.jnum 2), ("a", JVal.jnum 1)]
    ∧ generateKey "test" [("a", JVal.jnum 1), ("b", JVal.jnum 2)]
        = "d7553375d48bd99de867133c2d73c501" :=
  ⟨⟨List.Perm.swap _ _ _, by decide⟩,
   generateKey_order_independent "test" _ _ (List.Perm.swap _ _ _) (by decide),
   by rfl⟩
